import Mathlib

/-!
# sqlrunner: a shallow embedding of `sqlrunner.go`

The program is a straight line of calls into the operating system, the JSON
decoder and the database driver.  Each of those calls is an oracle of the
environment `Env`; the program itself is embedded as state-passing code over a
`World` that records the effects performed, the global `appConfig`, where the
standard logger writes, and which files have been closed.

Go control flow that matters here:
* `log.Fatal` / `log.Fatalf` write the message and call `os.Exit(1)`;
  `os.Exit` terminates the process at once, deferred calls are not run;
* `panic` unwinds the stack running deferred calls, and an unrecovered panic
  ends the process with status 2;
* `defer` runs the deferred call when the surrounding function returns.

Log lines are modelled by their message text (the timestamp prefix and the
final newline the logger adds are left out).
-/

namespace SqlRunner

/-- An error value, represented by the text `err.Error()` returns. -/
abbrev Error := String

/-- AppConfig holds json structure for the application configuration. -/
structure AppConfig where
  ConnString : String
deriving DecidableEq, Repr

/-- A database handle `*sql.DB`, identified by what it was opened with. -/
structure DB where
  driver : String
  dsn : String
deriving DecidableEq, Repr

/-- Where the standard logger writes: standard error until `log.SetOutput`,
then the file (named by its path). -/
inductive LogDest where
  | stderr
  | file (path : String)
deriving DecidableEq, Repr

/-- The calls the program makes outside itself, each with the error it
returned (`none` is Go's `nil`). -/
inductive Effect where
  | stdout (line : String)
  | openFile (path : String) (err : Option Error)
  | logSetOutput (path : String)
  | readAll (path : String) (err : Option Error)
  | jsonUnmarshal (bytes : String) (err : Option Error)
  | sqlOpen (driver dsn : String) (err : Option Error)
  | dbPing (db : DB) (err : Option Error)
  | dbExec (db : DB) (query : String) (err : Option Error)
  | dbClose (db : DB) (err : Option Error)
  | fileClose (path : String) (err : Option Error)
  | logWrite (dest : LogDest) (msg : String)
  | logWriteFailed (dest : LogDest) (msg : String)
deriving DecidableEq, Repr

/-- The environment: what every external call answers.  Files are named by
their path; `readAll` gives the bytes read together with the read error. -/
structure Env where
  openFile : String → Option Error
  readAll : String → String × Option Error
  closeFile : String → Option Error
  jsonUnmarshal : String → AppConfig → Except Error AppConfig
  sqlOpen : String → String → Option Error
  ping : DB → Option Error
  exec : DB → String → Option Error
  dbClose : DB → Option Error

/-- Process state: the effects so far (oldest first), the global `appConfig`,
the logger output and the files already closed. -/
structure World where
  trace : List Effect
  appConfig : AppConfig
  logOutput : LogDest
  closed : List String
deriving DecidableEq, Repr

/-- How a piece of Go code ends: it returns, the process exits through
`os.Exit`, or it panics. -/
inductive Res (α : Type) where
  | ret (a : α) (w : World)
  | exit (code : Nat) (w : World)
  | panic (e : Error) (w : World)

/-- Go code producing an `α`. -/
def Go (α : Type) : Type := World → Res α

/-- Return a value without touching the world. -/
def Go.pure {α : Type} (a : α) : Go α := fun w => .ret a w

/-- Sequencing: an exit or a panic of the first part skips the second. -/
def Go.bind {α β : Type} (m : Go α) (f : α → Go β) : Go β := fun w =>
  match m w with
  | .ret a w1 => f a w1
  | .exit c w1 => .exit c w1
  | .panic e w1 => .panic e w1

instance : Monad Go where
  pure := Go.pure
  bind := Go.bind

/-- Record one effect. -/
def emit (e : Effect) : Go Unit := fun w =>
  .ret () { w with trace := w.trace ++ [e] }

/-- The call `os.Exit(code)`. -/
def osExit {α : Type} (code : Nat) : Go α := fun w => .exit code w

/-- The statement `panic(err)`. -/
def goPanic {α : Type} (e : Error) : Go α := fun w => .panic e w

/-- The statement `defer cleanup` placed just before `body`, the rest of the
function: `cleanup` runs when `body` returns or panics, and does not run when
`body` leaves through `os.Exit`. -/
def withDefer {α : Type} (cleanup : Go Unit) (body : Go α) : Go α := fun w =>
  match body w with
  | .ret a w1 =>
    match cleanup w1 with
    | .ret _ w2 => .ret a w2
    | .exit c w2 => .exit c w2
    | .panic e w2 => .panic e w2
  | .exit c w1 => .exit c w1
  | .panic e w1 =>
    match cleanup w1 with
    | .ret _ w2 => .panic e w2
    | .exit c w2 => .exit c w2
    | .panic e2 w2 => .panic e2 w2

/-- The call `fmt.Println(line)`. -/
def fmtPrintln (line : String) : Go Unit := emit (.stdout line)

/-- One line handed to the standard logger: it is written to the current
output, and the write fails (silently) when that output is a closed file. -/
def logOutputLine (msg : String) : Go Unit := fun w =>
  match w.logOutput with
  | .stderr => emit (.logWrite .stderr msg) w
  | .file p =>
    if p ∈ w.closed then emit (.logWriteFailed (.file p) msg) w
    else emit (.logWrite (.file p) msg) w

/-- The call `log.Println(msg)`. -/
def logPrintln (msg : String) : Go Unit := logOutputLine msg

/-- The calls `log.Fatal` and `log.Fatalf`, given the formatted message: print,
then `os.Exit(1)`. -/
def logFatal {α : Type} (msg : String) : Go α := do
  logOutputLine msg
  osExit 1

/-- The call `log.SetOutput(f)`. -/
def logSetOutput (f : String) : Go Unit := fun w =>
  .ret () { w with trace := w.trace ++ [.logSetOutput f], logOutput := .file f }

/-- The calls `os.Open(path)` and `os.OpenFile(path, ...)`: the handle (named
by the path) and the error. -/
def osOpen (env : Env) (path : String) : Go (String × Option Error) := do
  emit (.openFile path (env.openFile path))
  pure (path, env.openFile path)

/-- The call `ioutil.ReadAll(f)`: the bytes read and the error. -/
def ioReadAll (env : Env) (f : String) : Go (String × Option Error) := do
  emit (.readAll f (env.readAll f).2)
  pure (env.readAll f)

/-- The call `f.Close()`.  Whether or not it reports an error, the descriptor
is released: later writes to the file fail. -/
def fileClose (env : Env) (f : String) : Go (Option Error) := fun w =>
  .ret (env.closeFile f)
    { w with trace := w.trace ++ [.fileClose f (env.closeFile f)], closed := f :: w.closed }

/-- The call `json.Unmarshal(bytes, &appConfig)`: on success the global is
replaced by the decoded value. -/
def jsonUnmarshalAppConfig (env : Env) (bytes : String) : Go (Option Error) := fun w =>
  match env.jsonUnmarshal bytes w.appConfig with
  | .ok cfg =>
    .ret none { w with trace := w.trace ++ [.jsonUnmarshal bytes none], appConfig := cfg }
  | .error e =>
    .ret (some e) { w with trace := w.trace ++ [.jsonUnmarshal bytes (some e)] }

/-- Read the global `appConfig`. -/
def getAppConfig : Go AppConfig := fun w => .ret w.appConfig w

/-- Assign the global `appConfig`. -/
def setAppConfig (cfg : AppConfig) : Go Unit := fun w => .ret () { w with appConfig := cfg }

/-- The call `sql.Open(driver, dsn)`. -/
def sqlOpen (env : Env) (driver dsn : String) : Go (DB × Option Error) := do
  emit (.sqlOpen driver dsn (env.sqlOpen driver dsn))
  pure (⟨driver, dsn⟩, env.sqlOpen driver dsn)

/-- The call `db.Ping()`. -/
def dbPing (env : Env) (db : DB) : Go (Option Error) := do
  emit (.dbPing db (env.ping db))
  pure (env.ping db)

/-- The call `db.Exec(query)`; the result value is discarded by the caller. -/
def dbExec (env : Env) (db : DB) (query : String) : Go (Option Error) := do
  emit (.dbExec db query (env.exec db query))
  pure (env.exec db query)

/-- The call `db.Close()`. -/
def dbCloseCall (env : Env) (db : DB) : Go (Option Error) := do
  emit (.dbClose db (env.dbClose db))
  pure (env.dbClose db)

/-! ## The functions of `sqlrunner.go` -/

/-- CheckErr checks the argument error and logs it. -/
def CheckErr (err : Option Error) : Go Unit :=
  match err with
  | some e => logFatal e
  | none => pure ()

/-- CloseFile closes the argument file and checks for errors. -/
def CloseFile (env : Env) (f : String) : Go Unit := do
  let err ← fileClose env f
  CheckErr err

/-- LoadSettings parses the settings json file and sets it up for us. -/
def LoadSettings (env : Env) : Go Unit := do
  let (jsonFile, err) ← osOpen env "sqlrunner.json"
  match err with
  | some e => logFatal ("Error loading settings " ++ e)
  | none => pure ()
  withDefer (CloseFile env jsonFile) do
    let (byteValue, _) ← ioReadAll env jsonFile
    let err ← jsonUnmarshalAppConfig env byteValue
    CheckErr err
    let cfg ← getAppConfig
    setAppConfig { cfg with ConnString := "sslmode=disable " ++ cfg.ConnString }

/-- LoadSQLCommands reads the SQL commands to execute from the file and
returns a string buffer with the commands. -/
def LoadSQLCommands (env : Env) : Go String := do
  let (sqlFile, err) ← osOpen env "commands.sql"
  match err with
  | some e => logFatal ("Error loading SQL commands file, check 'commands.sql': " ++ e)
  | none => pure ()
  withDefer (CloseFile env sqlFile) do
    let (byteValue, _) ← ioReadAll env sqlFile
    let sqlCommands := byteValue
    pure sqlCommands

/-- DBConnect connects to a database using the application configuration
connection string and returns the connection. -/
def DBConnect (env : Env) : Go DB := do
  let cfg ← getAppConfig
  let (db, err) ← sqlOpen env "postgres" cfg.ConnString
  CheckErr err
  pure db

/-- ExecuteSQLCommands executes the commands in the buffer `sqlCommands`. -/
def ExecuteSQLCommands (env : Env) (db : DB) (sqlCommands : String) : Go Unit := do
  let err ← dbExec env db sqlCommands
  CheckErr err
  logPrintln "Done"
  let err ← dbCloseCall env db
  CheckErr err

/-- The function `main` of the program. -/
def main (env : Env) : Go Unit := do
  fmtPrintln "SQL Runner"
  let (f, err) ← osOpen env "runner.log"
  match err with
  | some e => goPanic e
  | none => pure ()
  withDefer (CloseFile env f) do
    logSetOutput f
    LoadSettings env
    let db ← DBConnect env
    let err ← dbPing env db
    match err with
    | some _ => logFatal "Error: Could not establish a connection with the database"
    | none => pure ()
    logPrintln "Executing SQL commands..."
    let sqlCommands ← LoadSQLCommands env
    ExecuteSQLCommands env db sqlCommands
    logPrintln "SQL Commands executed."

/-- The world at process start: nothing done yet, `appConfig` is the zero
value, the logger writes to standard error. -/
def World.init : World :=
  { trace := [], appConfig := ⟨""⟩, logOutput := .stderr, closed := [] }

/-- What is observed of one run of the process. -/
structure Outcome where
  trace : List Effect
  status : Nat
deriving DecidableEq, Repr

/-- One run of the process: `main` returning gives status 0, `os.Exit(c)`
gives `c`, an unrecovered panic gives 2. -/
def run (env : Env) : Outcome :=
  match main env World.init with
  | .ret _ w => ⟨w.trace, 0⟩
  | .exit c w => ⟨w.trace, c⟩
  | .panic _ w => ⟨w.trace, 2⟩

/-! ## Stages of a run, as conditions on the environment

The names follow the program's straight-line path:
log file, settings, handle, ping, script, execution, close. -/

/-- The connection string `LoadSettings` leaves in `appConfig` after decoding
`cfg`. -/
def dsnOf (cfg : AppConfig) : String := "sslmode=disable " ++ cfg.ConnString

/-- The handle `DBConnect` returns for the decoded configuration `cfg`. -/
def handleOf (cfg : AppConfig) : DB := ⟨"postgres", dsnOf cfg⟩

/-- The bytes `ReadAll` returns for `sqlrunner.json`. -/
def Env.configBytes (env : Env) : String := (env.readAll "sqlrunner.json").1

/-- The result of decoding the settings into the zero-valued `appConfig`. -/
def Env.decoded (env : Env) : Except Error AppConfig :=
  env.jsonUnmarshal env.configBytes ⟨""⟩

/-- The bytes `ReadAll` returns for `commands.sql`. -/
def Env.script (env : Env) : String := (env.readAll "commands.sql").1

/-- The log file opens. -/
def LogReady (env : Env) : Prop := env.openFile "runner.log" = none

/-- The settings file opens after the log file did. -/
def ConfigOpen (env : Env) : Prop :=
  LogReady env ∧ env.openFile "sqlrunner.json" = none

/-- `LoadSettings` returns: the settings decode to `cfg` and the settings file
closes. -/
def ConfigLoaded (env : Env) (cfg : AppConfig) : Prop :=
  ConfigOpen env ∧ env.decoded = .ok cfg ∧ env.closeFile "sqlrunner.json" = none

/-- `DBConnect` returns a handle. -/
def HandleOpen (env : Env) (cfg : AppConfig) : Prop :=
  ConfigLoaded env cfg ∧ env.sqlOpen "postgres" (dsnOf cfg) = none

/-- The ping succeeds. -/
def PingOK (env : Env) (cfg : AppConfig) : Prop :=
  HandleOpen env cfg ∧ env.ping (handleOf cfg) = none

/-- The script file opens after a successful ping. -/
def ScriptOpen (env : Env) (cfg : AppConfig) : Prop :=
  PingOK env cfg ∧ env.openFile "commands.sql" = none

/-- `LoadSQLCommands` returns: the script file opens and closes. -/
def ScriptLoaded (env : Env) (cfg : AppConfig) : Prop :=
  ScriptOpen env cfg ∧ env.closeFile "commands.sql" = none

/-- The `Exec` of the script succeeds. -/
def Executed (env : Env) (cfg : AppConfig) : Prop :=
  ScriptLoaded env cfg ∧ env.exec (handleOf cfg) env.script = none

/-- `ExecuteSQLCommands` returns: the handle closes without error. -/
def Closed (env : Env) (cfg : AppConfig) : Prop :=
  Executed env cfg ∧ env.dbClose (handleOf cfg) = none

/-- Every call of the run succeeds, the final close of the log file
included. -/
def AllOK (env : Env) (cfg : AppConfig) : Prop :=
  Closed env cfg ∧ env.closeFile "runner.log" = none

deriving instance DecidableEq for Except

instance (env : Env) : Decidable (LogReady env) :=
  inferInstanceAs (Decidable (_ = _))

instance (env : Env) : Decidable (ConfigOpen env) :=
  inferInstanceAs (Decidable (_ ∧ _))

instance (env : Env) (cfg : AppConfig) : Decidable (ConfigLoaded env cfg) :=
  inferInstanceAs (Decidable (_ ∧ _))

instance (env : Env) (cfg : AppConfig) : Decidable (HandleOpen env cfg) :=
  inferInstanceAs (Decidable (_ ∧ _))

instance (env : Env) (cfg : AppConfig) : Decidable (PingOK env cfg) :=
  inferInstanceAs (Decidable (_ ∧ _))

instance (env : Env) (cfg : AppConfig) : Decidable (ScriptOpen env cfg) :=
  inferInstanceAs (Decidable (_ ∧ _))

instance (env : Env) (cfg : AppConfig) : Decidable (ScriptLoaded env cfg) :=
  inferInstanceAs (Decidable (_ ∧ _))

instance (env : Env) (cfg : AppConfig) : Decidable (Executed env cfg) :=
  inferInstanceAs (Decidable (_ ∧ _))

instance (env : Env) (cfg : AppConfig) : Decidable (Closed env cfg) :=
  inferInstanceAs (Decidable (_ ∧ _))

instance (env : Env) (cfg : AppConfig) : Decidable (AllOK env cfg) :=
  inferInstanceAs (Decidable (_ ∧ _))

/-- The steps of a successful run without the three file closes: the log
file opens, the settings open and decode, the handle is constructed, the ping
succeeds, the script opens, the `Exec` succeeds and the handle closes. -/
def ListedStepsOK (env : Env) (cfg : AppConfig) : Prop :=
  env.openFile "runner.log" = none ∧ env.openFile "sqlrunner.json" = none ∧
  env.decoded = .ok cfg ∧ env.sqlOpen "postgres" (dsnOf cfg) = none ∧
  env.ping (handleOf cfg) = none ∧ env.openFile "commands.sql" = none ∧
  env.exec (handleOf cfg) env.script = none ∧ env.dbClose (handleOf cfg) = none

instance (env : Env) (cfg : AppConfig) : Decidable (ListedStepsOK env cfg) :=
  inferInstanceAs (Decidable (_ ∧ _))

/-! ## Observations on a trace -/

/-- The log file as a logger output. -/
def runnerLog : LogDest := .file "runner.log"

/-- The messages written to `runner.log`, oldest first. -/
def logMessages : List Effect → List String
  | [] => []
  | .logWrite (.file "runner.log") msg :: es => msg :: logMessages es
  | _ :: es => logMessages es

/-- The arguments of the `sql.Open` calls, oldest first. -/
def sqlOpenArgs : List Effect → List (String × String)
  | [] => []
  | .sqlOpen driver dsn _ :: es => (driver, dsn) :: sqlOpenArgs es
  | _ :: es => sqlOpenArgs es

/-- The arguments of the `Exec` calls, oldest first. -/
def execArgs : List Effect → List String
  | [] => []
  | .dbExec _ query _ :: es => query :: execArgs es
  | _ :: es => execArgs es

/-- Is the effect a call of `sql.Open`? -/
def Effect.isSqlOpen : Effect → Bool
  | .sqlOpen _ _ _ => true
  | _ => false

/-- Is the effect a call of `db.Ping`? -/
def Effect.isPing : Effect → Bool
  | .dbPing _ _ => true
  | _ => false

/-- Is the effect a call of `db.Exec`? -/
def Effect.isExec : Effect → Bool
  | .dbExec _ _ _ => true
  | _ => false

/-- Is the effect a call of `db.Exec` that returned no error? -/
def Effect.isExecOK : Effect → Bool
  | .dbExec _ _ none => true
  | _ => false

/-- Is the effect a call of `db.Close`? -/
def Effect.isDbClose : Effect → Bool
  | .dbClose _ _ => true
  | _ => false

/-- Is the effect an open of, a read from or a close of the file `path`? -/
def Effect.onFile (path : String) : Effect → Bool
  | .openFile p _ => p == path
  | .readAll p _ => p == path
  | .fileClose p _ => p == path
  | _ => false

/-- Is the effect a write of `msg` to `runner.log`? -/
def Effect.isLog (msg : String) : Effect → Bool
  | .logWrite (.file "runner.log") m => m == msg
  | _ => false

/-- Is the effect a line handed to the logger (written or not)? -/
def Effect.isLogLine : Effect → Bool
  | .logWrite _ _ => true
  | .logWriteFailed _ _ => true
  | _ => false

/-- Some effect satisfying `p` is followed, later in the trace, by one
satisfying `q`. -/
def precedes (p q : Effect → Bool) : List Effect → Bool
  | [] => false
  | e :: es => (p e && es.any q) || precedes p q es

/-- The last call of the trace that is not a log line. -/
def lastCall (t : List Effect) : Option Effect :=
  (t.filter fun e => !e.isLogLine).getLast?

/-- The files opened without error for which `Close` was never called, in
the order they were opened. -/
def openAtExit : List Effect → List String
  | [] => []
  | .openFile p none :: es =>
    if es.any (fun e => match e with
      | .fileClose q _ => q == p
      | _ => false) then openAtExit es else p :: openAtExit es
  | _ :: es => openAtExit es

/-! ## Concrete environments

The end-to-end scenario of the specification and variations of it in which
one call fails. -/

/-- The connection string of the scenario. -/
def scenarioConn : String := "host=localhost dbname=test user=u password=p"

/-- The settings file of the scenario. -/
def scenarioJson : String :=
  "\x7b\"postgres_connection\":\"host=localhost dbname=test user=u password=p\"\x7d"

/-- The script file of the scenario. -/
def scenarioScript : String := "CREATE TABLE t(id int); INSERT INTO t VALUES (1);"

/-- The configuration the scenario's settings decode to. -/
def scenarioConfig : AppConfig := ⟨scenarioConn⟩

/-- Every call succeeds; the decoder accepts the scenario's settings file and
nothing else. -/
def Env.scenario : Env where
  openFile := fun _ => none
  readAll := fun p =>
    if p = "sqlrunner.json" then (scenarioJson, none)
    else if p = "commands.sql" then (scenarioScript, none)
    else ("", none)
  closeFile := fun _ => none
  jsonUnmarshal := fun bytes cfg =>
    if bytes = scenarioJson then .ok { cfg with ConnString := scenarioConn }
    else .error "unexpected end of JSON input"
  sqlOpen := fun _ _ => none
  ping := fun _ => none
  exec := fun _ _ => none
  dbClose := fun _ => none

/-- The log file cannot be opened. -/
def Env.noLog : Env :=
  { Env.scenario with
    openFile := fun p =>
      if p = "runner.log" then some "open runner.log: permission denied" else none }

/-- The settings file is absent. -/
def Env.noConfig : Env :=
  { Env.scenario with
    openFile := fun p =>
      if p = "sqlrunner.json" then some "open sqlrunner.json: no such file or directory"
      else none }

/-- The settings file is cut short and does not decode. -/
def Env.badJson : Env :=
  { Env.scenario with
    readAll := fun p =>
      if p = "sqlrunner.json" then ("\x7b\"postgres_connection\":", none)
      else if p = "commands.sql" then (scenarioScript, none)
      else ("", none) }

/-- Closing the settings file reports an error. -/
def Env.configCloseError : Env :=
  { Env.scenario with
    closeFile := fun p =>
      if p = "sqlrunner.json" then some "close sqlrunner.json: input/output error" else none }

/-- The database server is unreachable. -/
def Env.dbDown : Env :=
  { Env.scenario with
    ping := fun _ => some "dial tcp 127.0.0.1:5432: connect: connection refused" }

/-- The script file is absent. -/
def Env.noScript : Env :=
  { Env.scenario with
    openFile := fun p =>
      if p = "commands.sql" then some "open commands.sql: no such file or directory"
      else none }

/-- The script file opens, and reading it stops early with an error. -/
def Env.scriptReadError : Env :=
  { Env.scenario with
    readAll := fun p =>
      if p = "sqlrunner.json" then (scenarioJson, none)
      else if p = "commands.sql" then
        ("CREATE TABLE t(id int); INS", some "read commands.sql: input/output error")
      else ("", none) }

/-- The read of the script stops early with an error and the close of the
script file reports an error too. -/
def Env.scriptCloseError : Env :=
  { Env.scriptReadError with
    closeFile := fun p =>
      if p = "commands.sql" then some "close commands.sql: input/output error" else none }

/-- Every step succeeds until the final close of the log file, which reports
an error. -/
def Env.logCloseError : Env :=
  { Env.scenario with
    closeFile := fun p =>
      if p = "runner.log" then some "close runner.log: input/output error" else none }

/-- The script holds a comment and several statements. -/
def Env.commentedScript : Env :=
  { Env.scenario with
    readAll := fun p =>
      if p = "sqlrunner.json" then (scenarioJson, none)
      else if p = "commands.sql" then
        ("-- schema\nCREATE TABLE t(id int);\n  INSERT INTO t VALUES (1); \n", none)
      else ("", none) }

/-- The database rejects the script. -/
def Env.execError : Env :=
  { Env.scenario with exec := fun _ _ => some "pq: relation \"t\" already exists" }

/-! ## The trace along the successful path, stage by stage -/

/-- Up to the logger writing to the log file. -/
def traceLogReady : List Effect :=
  [.stdout "SQL Runner", .openFile "runner.log" none, .logSetOutput "runner.log"]

/-- Up to the read of the settings file. -/
def traceConfigRead (env : Env) : List Effect :=
  traceLogReady ++
    [.openFile "sqlrunner.json" none, .readAll "sqlrunner.json" (env.readAll "sqlrunner.json").2]

/-- Up to the return of `LoadSettings`. -/
def traceConfigLoaded (env : Env) : List Effect :=
  traceConfigRead env ++
    [.jsonUnmarshal env.configBytes none, .fileClose "sqlrunner.json" none]

/-- Up to the successful ping and the line logged after it. -/
def tracePingOK (env : Env) (cfg : AppConfig) : List Effect :=
  traceConfigLoaded env ++
    [.sqlOpen "postgres" (dsnOf cfg) none, .dbPing (handleOf cfg) none,
     .logWrite runnerLog "Executing SQL commands..."]

/-- Up to the read of the script file. -/
def traceScriptRead (env : Env) (cfg : AppConfig) : List Effect :=
  tracePingOK env cfg ++
    [.openFile "commands.sql" none, .readAll "commands.sql" (env.readAll "commands.sql").2]

/-- Up to the successful `Exec` and the line logged after it. -/
def traceExecuted (env : Env) (cfg : AppConfig) : List Effect :=
  traceScriptRead env cfg ++
    [.fileClose "commands.sql" none, .dbExec (handleOf cfg) env.script none,
     .logWrite runnerLog "Done"]

/-- Up to the last line `main` logs. -/
def traceClosed (env : Env) (cfg : AppConfig) : List Effect :=
  traceExecuted env cfg ++
    [.dbClose (handleOf cfg) none, .logWrite runnerLog "SQL Commands executed."]

/-- The twelve ways a run can go: the first call to fail (or none), with the
outcome of the run in that case. -/
inductive Path (env : Env) : Prop where
  | logOpenFails (e : Error) (h : env.openFile "runner.log" = some e)
      (hr : run env = ⟨[.stdout "SQL Runner", .openFile "runner.log" (some e)], 2⟩)
  | configOpenFails (e : Error) (h : LogReady env)
      (h1 : env.openFile "sqlrunner.json" = some e)
      (hr : run env = ⟨traceLogReady ++ [.openFile "sqlrunner.json" (some e),
        .logWrite runnerLog ("Error loading settings " ++ e)], 1⟩)
  | decodeFails (e : Error) (h : ConfigOpen env) (h1 : env.decoded = .error e)
      (hr : run env = ⟨traceConfigRead env ++ [.jsonUnmarshal env.configBytes (some e),
        .logWrite runnerLog e], 1⟩)
  | configCloseFails (cfg : AppConfig) (e : Error) (h : ConfigOpen env)
      (h1 : env.decoded = .ok cfg) (h2 : env.closeFile "sqlrunner.json" = some e)
      (hr : run env = ⟨traceConfigRead env ++ [.jsonUnmarshal env.configBytes none,
        .fileClose "sqlrunner.json" (some e), .logWrite runnerLog e], 1⟩)
  | sqlOpenFails (cfg : AppConfig) (e : Error) (h : ConfigLoaded env cfg)
      (h1 : env.sqlOpen "postgres" (dsnOf cfg) = some e)
      (hr : run env = ⟨traceConfigLoaded env ++ [.sqlOpen "postgres" (dsnOf cfg) (some e),
        .logWrite runnerLog e], 1⟩)
  | pingFails (cfg : AppConfig) (e : Error) (h : HandleOpen env cfg)
      (h1 : env.ping (handleOf cfg) = some e)
      (hr : run env = ⟨traceConfigLoaded env ++ [.sqlOpen "postgres" (dsnOf cfg) none,
        .dbPing (handleOf cfg) (some e),
        .logWrite runnerLog "Error: Could not establish a connection with the database"], 1⟩)
  | scriptOpenFails (cfg : AppConfig) (e : Error) (h : PingOK env cfg)
      (h1 : env.openFile "commands.sql" = some e)
      (hr : run env = ⟨tracePingOK env cfg ++ [.openFile "commands.sql" (some e),
        .logWrite runnerLog ("Error loading SQL commands file, check 'commands.sql': " ++ e)],
        1⟩)
  | scriptCloseFails (cfg : AppConfig) (e : Error) (h : ScriptOpen env cfg)
      (h1 : env.closeFile "commands.sql" = some e)
      (hr : run env = ⟨traceScriptRead env cfg ++ [.fileClose "commands.sql" (some e),
        .logWrite runnerLog e], 1⟩)
  | execFails (cfg : AppConfig) (e : Error) (h : ScriptLoaded env cfg)
      (h1 : env.exec (handleOf cfg) env.script = some e)
      (hr : run env = ⟨traceScriptRead env cfg ++ [.fileClose "commands.sql" none,
        .dbExec (handleOf cfg) env.script (some e), .logWrite runnerLog e], 1⟩)
  | dbCloseFails (cfg : AppConfig) (e : Error) (h : Executed env cfg)
      (h1 : env.dbClose (handleOf cfg) = some e)
      (hr : run env = ⟨traceExecuted env cfg ++ [.dbClose (handleOf cfg) (some e),
        .logWrite runnerLog e], 1⟩)
  | logCloseFails (cfg : AppConfig) (e : Error) (h : Closed env cfg)
      (h1 : env.closeFile "runner.log" = some e)
      (hr : run env = ⟨traceClosed env cfg ++ [.fileClose "runner.log" (some e),
        .logWriteFailed runnerLog e], 1⟩)
  | allOK (cfg : AppConfig) (h : AllOK env cfg)
      (hr : run env = ⟨traceClosed env cfg ++ [.fileClose "runner.log" none], 0⟩)

/-! ## Evaluation of the run along each path -/

@[simp] theorem Go.bind_apply {α β : Type} (m : Go α) (f : α → Go β) (w : World) :
    (m >>= f) w = match m w with
      | .ret a w1 => f a w1
      | .exit c w1 => .exit c w1
      | .panic e w1 => .panic e w1 := rfl

@[simp] theorem Go.pure_apply {α : Type} (a : α) (w : World) :
    (Pure.pure a : Go α) w = .ret a w := rfl

/-- The log file does not open: `main` panics before anything else. -/
theorem run_logOpenFails (env : Env) (e : Error) (h : env.openFile "runner.log" = some e) :
    run env = ⟨[.stdout "SQL Runner", .openFile "runner.log" (some e)], 2⟩ := by
  simp [run, main, fmtPrintln, emit, osOpen, goPanic, h, World.init]

/-- The settings file does not open. -/
theorem run_configOpenFails (env : Env) (e : Error) (h : LogReady env)
    (h1 : env.openFile "sqlrunner.json" = some e) :
    run env = ⟨traceLogReady ++ [.openFile "sqlrunner.json" (some e),
      .logWrite runnerLog ("Error loading settings " ++ e)], 1⟩ := by
  simp only [LogReady] at h
  simp [run, main, fmtPrintln, emit, osOpen, h, h1, World.init, withDefer, logSetOutput,
    LoadSettings, logFatal, logOutputLine, osExit, traceLogReady, runnerLog]

/-- The settings do not decode. -/
theorem run_decodeFails (env : Env) (e : Error) (h : ConfigOpen env)
    (h1 : env.decoded = .error e) :
    run env = ⟨traceConfigRead env ++ [.jsonUnmarshal env.configBytes (some e),
      .logWrite runnerLog e], 1⟩ := by
  simp only [ConfigOpen, LogReady, Env.decoded, Env.configBytes] at h h1
  simp [run, main, fmtPrintln, emit, osOpen, h, h1, World.init, withDefer, logSetOutput,
    LoadSettings, logFatal, logOutputLine, osExit, traceLogReady, runnerLog, ioReadAll,
    jsonUnmarshalAppConfig, CheckErr, traceConfigRead, Env.configBytes]

/-- The settings file does not close. -/
theorem run_configCloseFails (env : Env) (cfg : AppConfig) (e : Error)
    (h : ConfigOpen env) (h1 : env.decoded = .ok cfg) (h2 : env.closeFile "sqlrunner.json" = some e) :
    run env = ⟨traceConfigRead env ++ [.jsonUnmarshal env.configBytes none,
      .fileClose "sqlrunner.json" (some e), .logWrite runnerLog e], 1⟩ := by
  simp only [ConfigOpen, LogReady, ConfigLoaded, HandleOpen, PingOK, ScriptOpen, ScriptLoaded,
    Executed, Closed, AllOK, Env.decoded, Env.configBytes, Env.script, dsnOf, handleOf] at h h1 h2
  simp [run, main, fmtPrintln, emit, osOpen, World.init, withDefer, logSetOutput,
    LoadSettings, logFatal, logOutputLine, logPrintln, osExit, ioReadAll, jsonUnmarshalAppConfig,
    CheckErr, CloseFile, fileClose, getAppConfig, setAppConfig, DBConnect, sqlOpen, dbPing,
    LoadSQLCommands, ExecuteSQLCommands, dbExec, dbCloseCall,
    traceLogReady, traceConfigRead, traceConfigLoaded, tracePingOK, traceScriptRead,
    traceExecuted, traceClosed, runnerLog, Env.configBytes, Env.script, dsnOf, handleOf, h, h1, h2]

/-- No handle is constructed. -/
theorem run_sqlOpenFails (env : Env) (cfg : AppConfig) (e : Error)
    (h : ConfigLoaded env cfg) (h1 : env.sqlOpen "postgres" (dsnOf cfg) = some e) :
    run env = ⟨traceConfigLoaded env ++ [.sqlOpen "postgres" (dsnOf cfg) (some e),
      .logWrite runnerLog e], 1⟩ := by
  simp only [ConfigOpen, LogReady, ConfigLoaded, HandleOpen, PingOK, ScriptOpen, ScriptLoaded,
    Executed, Closed, AllOK, Env.decoded, Env.configBytes, Env.script, dsnOf, handleOf] at h h1
  simp [run, main, fmtPrintln, emit, osOpen, World.init, withDefer, logSetOutput,
    LoadSettings, logFatal, logOutputLine, logPrintln, osExit, ioReadAll, jsonUnmarshalAppConfig,
    CheckErr, CloseFile, fileClose, getAppConfig, setAppConfig, DBConnect, sqlOpen, dbPing,
    LoadSQLCommands, ExecuteSQLCommands, dbExec, dbCloseCall,
    traceLogReady, traceConfigRead, traceConfigLoaded, tracePingOK, traceScriptRead,
    traceExecuted, traceClosed, runnerLog, Env.configBytes, Env.script, dsnOf, handleOf, h, h1]

/-- The ping fails. -/
theorem run_pingFails (env : Env) (cfg : AppConfig) (e : Error)
    (h : HandleOpen env cfg) (h1 : env.ping (handleOf cfg) = some e) :
    run env = ⟨traceConfigLoaded env ++ [.sqlOpen "postgres" (dsnOf cfg) none,
      .dbPing (handleOf cfg) (some e),
      .logWrite runnerLog "Error: Could not establish a connection with the database"], 1⟩ := by
  simp only [ConfigOpen, LogReady, ConfigLoaded, HandleOpen, PingOK, ScriptOpen, ScriptLoaded,
    Executed, Closed, AllOK, Env.decoded, Env.configBytes, Env.script, dsnOf, handleOf] at h h1
  simp [run, main, fmtPrintln, emit, osOpen, World.init, withDefer, logSetOutput,
    LoadSettings, logFatal, logOutputLine, logPrintln, osExit, ioReadAll, jsonUnmarshalAppConfig,
    CheckErr, CloseFile, fileClose, getAppConfig, setAppConfig, DBConnect, sqlOpen, dbPing,
    LoadSQLCommands, ExecuteSQLCommands, dbExec, dbCloseCall,
    traceLogReady, traceConfigRead, traceConfigLoaded, tracePingOK, traceScriptRead,
    traceExecuted, traceClosed, runnerLog, Env.configBytes, Env.script, dsnOf, handleOf, h, h1]

/-- The script file does not open. -/
theorem run_scriptOpenFails (env : Env) (cfg : AppConfig) (e : Error)
    (h : PingOK env cfg) (h1 : env.openFile "commands.sql" = some e) :
    run env = ⟨tracePingOK env cfg ++ [.openFile "commands.sql" (some e),
      .logWrite runnerLog ("Error loading SQL commands file, check 'commands.sql': " ++ e)], 1⟩ := by
  simp only [ConfigOpen, LogReady, ConfigLoaded, HandleOpen, PingOK, ScriptOpen, ScriptLoaded,
    Executed, Closed, AllOK, Env.decoded, Env.configBytes, Env.script, dsnOf, handleOf] at h h1
  simp [run, main, fmtPrintln, emit, osOpen, World.init, withDefer, logSetOutput,
    LoadSettings, logFatal, logOutputLine, logPrintln, osExit, ioReadAll, jsonUnmarshalAppConfig,
    CheckErr, CloseFile, fileClose, getAppConfig, setAppConfig, DBConnect, sqlOpen, dbPing,
    LoadSQLCommands, ExecuteSQLCommands, dbExec, dbCloseCall,
    traceLogReady, traceConfigRead, traceConfigLoaded, tracePingOK, traceScriptRead,
    traceExecuted, traceClosed, runnerLog, Env.configBytes, Env.script, dsnOf, handleOf, h, h1]

/-- The script file does not close. -/
theorem run_scriptCloseFails (env : Env) (cfg : AppConfig) (e : Error)
    (h : ScriptOpen env cfg) (h1 : env.closeFile "commands.sql" = some e) :
    run env = ⟨traceScriptRead env cfg ++ [.fileClose "commands.sql" (some e),
      .logWrite runnerLog e], 1⟩ := by
  simp only [ConfigOpen, LogReady, ConfigLoaded, HandleOpen, PingOK, ScriptOpen, ScriptLoaded,
    Executed, Closed, AllOK, Env.decoded, Env.configBytes, Env.script, dsnOf, handleOf] at h h1
  simp [run, main, fmtPrintln, emit, osOpen, World.init, withDefer, logSetOutput,
    LoadSettings, logFatal, logOutputLine, logPrintln, osExit, ioReadAll, jsonUnmarshalAppConfig,
    CheckErr, CloseFile, fileClose, getAppConfig, setAppConfig, DBConnect, sqlOpen, dbPing,
    LoadSQLCommands, ExecuteSQLCommands, dbExec, dbCloseCall,
    traceLogReady, traceConfigRead, traceConfigLoaded, tracePingOK, traceScriptRead,
    traceExecuted, traceClosed, runnerLog, Env.configBytes, Env.script, dsnOf, handleOf, h, h1]

/-- The `Exec` fails. -/
theorem run_execFails (env : Env) (cfg : AppConfig) (e : Error)
    (h : ScriptLoaded env cfg) (h1 : env.exec (handleOf cfg) env.script = some e) :
    run env = ⟨traceScriptRead env cfg ++ [.fileClose "commands.sql" none,
      .dbExec (handleOf cfg) env.script (some e), .logWrite runnerLog e], 1⟩ := by
  simp only [ConfigOpen, LogReady, ConfigLoaded, HandleOpen, PingOK, ScriptOpen, ScriptLoaded,
    Executed, Closed, AllOK, Env.decoded, Env.configBytes, Env.script, dsnOf, handleOf] at h h1
  simp [run, main, fmtPrintln, emit, osOpen, World.init, withDefer, logSetOutput,
    LoadSettings, logFatal, logOutputLine, logPrintln, osExit, ioReadAll, jsonUnmarshalAppConfig,
    CheckErr, CloseFile, fileClose, getAppConfig, setAppConfig, DBConnect, sqlOpen, dbPing,
    LoadSQLCommands, ExecuteSQLCommands, dbExec, dbCloseCall,
    traceLogReady, traceConfigRead, traceConfigLoaded, tracePingOK, traceScriptRead,
    traceExecuted, traceClosed, runnerLog, Env.configBytes, Env.script, dsnOf, handleOf, h, h1]

/-- The handle does not close. -/
theorem run_dbCloseFails (env : Env) (cfg : AppConfig) (e : Error)
    (h : Executed env cfg) (h1 : env.dbClose (handleOf cfg) = some e) :
    run env = ⟨traceExecuted env cfg ++ [.dbClose (handleOf cfg) (some e),
      .logWrite runnerLog e], 1⟩ := by
  simp only [ConfigOpen, LogReady, ConfigLoaded, HandleOpen, PingOK, ScriptOpen, ScriptLoaded,
    Executed, Closed, AllOK, Env.decoded, Env.configBytes, Env.script, dsnOf, handleOf] at h h1
  simp [run, main, fmtPrintln, emit, osOpen, World.init, withDefer, logSetOutput,
    LoadSettings, logFatal, logOutputLine, logPrintln, osExit, ioReadAll, jsonUnmarshalAppConfig,
    CheckErr, CloseFile, fileClose, getAppConfig, setAppConfig, DBConnect, sqlOpen, dbPing,
    LoadSQLCommands, ExecuteSQLCommands, dbExec, dbCloseCall,
    traceLogReady, traceConfigRead, traceConfigLoaded, tracePingOK, traceScriptRead,
    traceExecuted, traceClosed, runnerLog, Env.configBytes, Env.script, dsnOf, handleOf, h, h1]

/-- The log file does not close when `main` returns: the fatal line goes to the
closed file and is lost. -/
theorem run_logCloseFails (env : Env) (cfg : AppConfig) (e : Error)
    (h : Closed env cfg) (h1 : env.closeFile "runner.log" = some e) :
    run env = ⟨traceClosed env cfg ++ [.fileClose "runner.log" (some e),
      .logWriteFailed runnerLog e], 1⟩ := by
  simp only [ConfigOpen, LogReady, ConfigLoaded, HandleOpen, PingOK, ScriptOpen, ScriptLoaded,
    Executed, Closed, AllOK, Env.decoded, Env.configBytes, Env.script, dsnOf, handleOf] at h h1
  simp [run, main, fmtPrintln, emit, osOpen, World.init, withDefer, logSetOutput,
    LoadSettings, logFatal, logOutputLine, logPrintln, osExit, ioReadAll, jsonUnmarshalAppConfig,
    CheckErr, CloseFile, fileClose, getAppConfig, setAppConfig, DBConnect, sqlOpen, dbPing,
    LoadSQLCommands, ExecuteSQLCommands, dbExec, dbCloseCall,
    traceLogReady, traceConfigRead, traceConfigLoaded, tracePingOK, traceScriptRead,
    traceExecuted, traceClosed, runnerLog, Env.configBytes, Env.script, dsnOf, handleOf, h, h1]

/-- Every call succeeds. -/
theorem run_allOK (env : Env) (cfg : AppConfig)
    (h : AllOK env cfg) :
    run env = ⟨traceClosed env cfg ++ [.fileClose "runner.log" none], 0⟩ := by
  simp only [ConfigOpen, LogReady, ConfigLoaded, HandleOpen, PingOK, ScriptOpen, ScriptLoaded,
    Executed, Closed, AllOK, Env.decoded, Env.configBytes, Env.script, dsnOf, handleOf] at h
  simp [run, main, fmtPrintln, emit, osOpen, World.init, withDefer, logSetOutput,
    LoadSettings, logFatal, logOutputLine, logPrintln, osExit, ioReadAll, jsonUnmarshalAppConfig,
    CheckErr, CloseFile, fileClose, getAppConfig, setAppConfig, DBConnect, sqlOpen, dbPing,
    LoadSQLCommands, ExecuteSQLCommands, dbExec, dbCloseCall,
    traceLogReady, traceConfigRead, traceConfigLoaded, tracePingOK, traceScriptRead,
    traceExecuted, traceClosed, runnerLog, Env.configBytes, Env.script, dsnOf, handleOf, h]

/-- Every run follows one of the twelve paths. -/
theorem run_path (env : Env) : Path env := by
  rcases h0 : env.openFile "runner.log" with _ | e
  swap
  · exact .logOpenFails e h0 (run_logOpenFails env e h0)
  have s0 : LogReady env := h0
  rcases h1 : env.openFile "sqlrunner.json" with _ | e
  swap
  · exact .configOpenFails e s0 h1 (run_configOpenFails env e s0 h1)
  have s1 : ConfigOpen env := ⟨s0, h1⟩
  rcases h2 : env.decoded with e | cfg
  · exact .decodeFails e s1 h2 (run_decodeFails env e s1 h2)
  rcases h3 : env.closeFile "sqlrunner.json" with _ | e
  swap
  · exact .configCloseFails cfg e s1 h2 h3 (run_configCloseFails env cfg e s1 h2 h3)
  have s3 : ConfigLoaded env cfg := ⟨s1, h2, h3⟩
  rcases h4 : env.sqlOpen "postgres" (dsnOf cfg) with _ | e
  swap
  · exact .sqlOpenFails cfg e s3 h4 (run_sqlOpenFails env cfg e s3 h4)
  have s4 : HandleOpen env cfg := ⟨s3, h4⟩
  rcases h5 : env.ping (handleOf cfg) with _ | e
  swap
  · exact .pingFails cfg e s4 h5 (run_pingFails env cfg e s4 h5)
  have s5 : PingOK env cfg := ⟨s4, h5⟩
  rcases h6 : env.openFile "commands.sql" with _ | e
  swap
  · exact .scriptOpenFails cfg e s5 h6 (run_scriptOpenFails env cfg e s5 h6)
  have s6 : ScriptOpen env cfg := ⟨s5, h6⟩
  rcases h7 : env.closeFile "commands.sql" with _ | e
  swap
  · exact .scriptCloseFails cfg e s6 h7 (run_scriptCloseFails env cfg e s6 h7)
  have s7 : ScriptLoaded env cfg := ⟨s6, h7⟩
  rcases h8 : env.exec (handleOf cfg) env.script with _ | e
  swap
  · exact .execFails cfg e s7 h8 (run_execFails env cfg e s7 h8)
  have s8 : Executed env cfg := ⟨s7, h8⟩
  rcases h9 : env.dbClose (handleOf cfg) with _ | e
  swap
  · exact .dbCloseFails cfg e s8 h9 (run_dbCloseFails env cfg e s8 h9)
  have s9 : Closed env cfg := ⟨s8, h9⟩
  rcases h10 : env.closeFile "runner.log" with _ | e
  swap
  · exact .logCloseFails cfg e s9 h10 (run_logCloseFails env cfg e s9 h10)
  exact .allOK cfg ⟨s9, h10⟩ (run_allOK env cfg ⟨s9, h10⟩)

/-- The exit status is 0 exactly when every call of the run succeeds. -/
theorem status_zero_iff (env : Env) : (run env).status = 0 ↔ ∃ cfg, AllOK env cfg := by
  constructor
  · intro hs
    rcases run_path env with ⟨e, h0, hr⟩ | ⟨e, h0, h1, hr⟩ | ⟨e, h0, h1, hr⟩ |
    ⟨cfg, e, h0, h1, h2, hr⟩ | ⟨cfg, e, h0, h1, hr⟩ | ⟨cfg, e, h0, h1, hr⟩ |
    ⟨cfg, e, h0, h1, hr⟩ | ⟨cfg, e, h0, h1, hr⟩ | ⟨cfg, e, h0, h1, hr⟩ |
    ⟨cfg, e, h0, h1, hr⟩ | ⟨cfg, e, h0, h1, hr⟩ | ⟨cfg, h0, hr⟩
    all_goals first
      | exact ⟨cfg, h0⟩
      | (rw [hr] at hs; simp at hs)
  · rintro ⟨cfg, h⟩
    rw [run_allOK env cfg h]

/-- When its file opens and closes, `LoadSQLCommands` returns the bytes
`ReadAll` gave, whatever error `ReadAll` reported. -/
theorem LoadSQLCommands_returns (env : Env) (h : env.openFile "commands.sql" = none)
    (h2 : env.closeFile "commands.sql" = none) (w : World) :
    ∃ w1, LoadSQLCommands env w = .ret (env.readAll "commands.sql").1 w1 := by
  simp [LoadSQLCommands, osOpen, emit, withDefer, ioReadAll, CloseFile, fileClose, CheckErr,
    h, h2]

/-- When its file does not open, `LoadSQLCommands` ends the process with
status 1. -/
theorem LoadSQLCommands_exits (env : Env) (e : Error)
    (h : env.openFile "commands.sql" = some e) (w : World) :
    ∃ w1, LoadSQLCommands env w = .exit 1 w1 := by
  simp only [LoadSQLCommands, osOpen, emit, logFatal, logOutputLine, osExit, Go.bind_apply,
    Go.pure_apply, h]
  cases w.logOutput with
  | stderr => simp
  | file p => by_cases hp : p ∈ w.closed <;> simp [hp]

/-- When its file opens and the deferred close reports an error,
`LoadSQLCommands` ends the process with status 1. -/
theorem LoadSQLCommands_exits_on_close (env : Env) (e : Error)
    (h : env.openFile "commands.sql" = none) (h2 : env.closeFile "commands.sql" = some e)
    (w : World) : ∃ w1, LoadSQLCommands env w = .exit 1 w1 := by
  simp only [LoadSQLCommands, osOpen, emit, withDefer, ioReadAll, CloseFile, fileClose,
    CheckErr, logFatal, logOutputLine, osExit, Go.bind_apply, Go.pure_apply, h, h2]
  cases w.logOutput with
  | stderr => simp
  | file p => by_cases hp : p ∈ "commands.sql" :: w.closed <;> simp [hp]

/-! ## The claims -/

/-- Claim C1: when the settings decode successfully with connection string `S`,
every `sql.Open` of the run is made with driver `postgres` and the connection
string `"sslmode=disable " ++ S`, and when the run reaches `DBConnect` (log
file and settings file open, settings file closes) there is exactly one such
call. -/
theorem dbconnect_dsn_prefixed (env : Env) (S : String)
    (h : env.jsonUnmarshal (env.readAll "sqlrunner.json").1 ⟨""⟩ = .ok ⟨S⟩) :
    (∀ a ∈ sqlOpenArgs (run env).trace, a = ("postgres", "sslmode=disable " ++ S)) ∧
    (env.openFile "runner.log" = none → env.openFile "sqlrunner.json" = none →
      env.closeFile "sqlrunner.json" = none →
      sqlOpenArgs (run env).trace = [("postgres", "sslmode=disable " ++ S)]) := by
  rcases run_path env with ⟨e, h0, hr⟩ | ⟨e, h0, h1, hr⟩ | ⟨e, h0, h1, hr⟩ |
    ⟨cfg, e, h0, h1, h2, hr⟩ | ⟨cfg, e, h0, h1, hr⟩ | ⟨cfg, e, h0, h1, hr⟩ |
    ⟨cfg, e, h0, h1, hr⟩ | ⟨cfg, e, h0, h1, hr⟩ | ⟨cfg, e, h0, h1, hr⟩ |
    ⟨cfg, e, h0, h1, hr⟩ | ⟨cfg, e, h0, h1, hr⟩ | ⟨cfg, h0, hr⟩ <;>
  first
  | (have hc : cfg = ⟨S⟩ := by
      simp_all [ConfigOpen, LogReady, ConfigLoaded, HandleOpen, PingOK, ScriptOpen, ScriptLoaded,
    Executed, Closed, AllOK, Env.decoded, Env.configBytes]
     subst hc
     simp_all [ConfigOpen, LogReady, ConfigLoaded, HandleOpen, PingOK, ScriptOpen, ScriptLoaded,
    Executed, Closed, AllOK, Env.decoded, Env.configBytes, Env.script, dsnOf, handleOf,
      traceLogReady, traceConfigRead, traceConfigLoaded, tracePingOK, traceScriptRead,
    traceExecuted, traceClosed, runnerLog, sqlOpenArgs])
  | simp_all [ConfigOpen, LogReady, ConfigLoaded, HandleOpen, PingOK, ScriptOpen, ScriptLoaded,
    Executed, Closed, AllOK, Env.decoded, Env.configBytes, Env.script, dsnOf, handleOf,
    traceLogReady, traceConfigRead, traceConfigLoaded, tracePingOK, traceScriptRead,
    traceExecuted, traceClosed, runnerLog, sqlOpenArgs]

/-- Witness of C1 on the end-to-end scenario. -/
theorem dbconnect_dsn_prefixed_witness :
    Env.scenario.jsonUnmarshal (Env.scenario.readAll "sqlrunner.json").1 ⟨""⟩ =
      .ok ⟨"host=localhost dbname=test user=u password=p"⟩ ∧
    sqlOpenArgs (run Env.scenario).trace =
      [("postgres", "sslmode=disable host=localhost dbname=test user=u password=p")] :=
  ⟨by decide,
   (dbconnect_dsn_prefixed Env.scenario "host=localhost dbname=test user=u password=p"
      (by decide)).2 (by decide) (by decide) (by decide)⟩

/-- Claim C2: when the log file opens and `sqlrunner.json` does not, the run
ends with a non-zero status and its trace holds no `sql.Open`, no ping, no
access to `commands.sql` and no `Exec`. -/
theorem missing_config_no_database_call (env : Env) (e : Error) (hlog : LogReady env)
    (hcfg : env.openFile "sqlrunner.json" = some e) :
    (run env).status ≠ 0 ∧
    (run env).trace.any Effect.isSqlOpen = false ∧
    (run env).trace.any Effect.isPing = false ∧
    (run env).trace.any (Effect.onFile "commands.sql") = false ∧
    (run env).trace.any Effect.isExec = false := by
  rw [run_configOpenFails env e hlog hcfg]
  simp [traceLogReady, Effect.isSqlOpen, Effect.isPing, Effect.onFile, Effect.isExec]

/-- Witness of C2: the settings file is absent. -/
theorem missing_config_no_database_call_witness :
    LogReady Env.noConfig ∧
    Env.noConfig.openFile "sqlrunner.json" =
      some "open sqlrunner.json: no such file or directory" ∧
    (run Env.noConfig).status ≠ 0 ∧
    (run Env.noConfig).trace.any Effect.isSqlOpen = false ∧
    (run Env.noConfig).trace.any Effect.isPing = false ∧
    (run Env.noConfig).trace.any (Effect.onFile "commands.sql") = false ∧
    (run Env.noConfig).trace.any Effect.isExec = false :=
  ⟨by decide, by decide,
   missing_config_no_database_call Env.noConfig
     "open sqlrunner.json: no such file or directory" (by decide) (by decide)⟩

/-- Claim C3: when the log file, the settings load and the handle construction
succeed and the ping returns an error, the only line written to the log is the
fixed text (the ping error does not appear in it), the status is non-zero, and
the trace holds no access to `commands.sql` and no `Exec`. -/
theorem ping_failure_fixed_message (env : Env) (cfg : AppConfig) (e : Error)
    (h : HandleOpen env cfg) (hping : env.ping (handleOf cfg) = some e) :
    logMessages (run env).trace =
      ["Error: Could not establish a connection with the database"] ∧
    (run env).status ≠ 0 ∧
    (run env).trace.any (Effect.onFile "commands.sql") = false ∧
    (run env).trace.any Effect.isExec = false := by
  rw [run_pingFails env cfg e h hping]
  simp [traceLogReady, traceConfigRead, traceConfigLoaded, runnerLog, logMessages,
    Effect.onFile, Effect.isExec]

/-- Witness of C3: the database server is unreachable. -/
theorem ping_failure_fixed_message_witness :
    HandleOpen Env.dbDown scenarioConfig ∧
    Env.dbDown.ping (handleOf scenarioConfig) =
      some "dial tcp 127.0.0.1:5432: connect: connection refused" ∧
    logMessages (run Env.dbDown).trace =
      ["Error: Could not establish a connection with the database"] ∧
    (run Env.dbDown).status ≠ 0 ∧
    (run Env.dbDown).trace.any (Effect.onFile "commands.sql") = false ∧
    (run Env.dbDown).trace.any Effect.isExec = false :=
  ⟨by decide, by decide,
   ping_failure_fixed_message Env.dbDown scenarioConfig
     "dial tcp 127.0.0.1:5432: connect: connection refused" (by decide) (by decide)⟩

/-- Claim C4: when every step up to and including the ping succeeds and
`commands.sql` does not open, the status is non-zero, the ping comes before the
failed open in the trace, and no `Exec` is issued. -/
theorem missing_script_after_ping (env : Env) (cfg : AppConfig) (e : Error)
    (h : PingOK env cfg) (hopen : env.openFile "commands.sql" = some e) :
    (run env).status ≠ 0 ∧
    precedes Effect.isPing (fun x => x == .openFile "commands.sql" (some e))
      (run env).trace = true ∧
    (run env).trace.any Effect.isExec = false := by
  rw [run_scriptOpenFails env cfg e h hopen]
  simp [traceLogReady, traceConfigRead, traceConfigLoaded, tracePingOK, runnerLog, precedes,
    Effect.isPing, Effect.isExec]

/-- Witness of C4: the script file is absent. -/
theorem missing_script_after_ping_witness :
    PingOK Env.noScript scenarioConfig ∧
    Env.noScript.openFile "commands.sql" =
      some "open commands.sql: no such file or directory" ∧
    (run Env.noScript).status ≠ 0 ∧
    precedes Effect.isPing
      (fun x => x == .openFile "commands.sql"
        (some "open commands.sql: no such file or directory"))
      (run Env.noScript).trace = true ∧
    (run Env.noScript).trace.any Effect.isExec = false :=
  ⟨by decide, by decide,
   missing_script_after_ping Env.noScript scenarioConfig
     "open commands.sql: no such file or directory" (by decide) (by decide)⟩

/-- Claim C5: when every step before the `Exec` succeeds and the script read
gives `B`, the run issues exactly one `Exec` and its argument is `B`
unchanged. -/
theorem exec_receives_whole_script (env : Env) (cfg : AppConfig) (B : String)
    (h : ScriptLoaded env cfg) (hB : (env.readAll "commands.sql").1 = B) :
    execArgs (run env).trace = [B] := by
  subst hB
  rcases hx : env.exec (handleOf cfg) env.script with _ | e
  · rcases hc : env.dbClose (handleOf cfg) with _ | e
    · rcases hl : env.closeFile "runner.log" with _ | e
      · rw [run_allOK env cfg ⟨⟨⟨h, hx⟩, hc⟩, hl⟩]
        simp [traceLogReady, traceConfigRead, traceConfigLoaded, tracePingOK, traceScriptRead,
    traceExecuted, traceClosed, runnerLog, execArgs, Env.script]
      · rw [run_logCloseFails env cfg e ⟨⟨h, hx⟩, hc⟩ hl]
        simp [traceLogReady, traceConfigRead, traceConfigLoaded, tracePingOK, traceScriptRead,
    traceExecuted, traceClosed, runnerLog, execArgs, Env.script]
    · rw [run_dbCloseFails env cfg e ⟨h, hx⟩ hc]
      simp [traceLogReady, traceConfigRead, traceConfigLoaded, tracePingOK, traceScriptRead,
    traceExecuted, traceClosed, runnerLog, execArgs, Env.script]
  · rw [run_execFails env cfg e h hx]
    simp [traceLogReady, traceConfigRead, traceConfigLoaded, tracePingOK, traceScriptRead,
    traceExecuted, traceClosed, runnerLog, execArgs, Env.script]

/-- Witness of C5: a script with a comment, several statements and blanks. -/
theorem exec_receives_whole_script_witness :
    ScriptLoaded Env.commentedScript scenarioConfig ∧
    execArgs (run Env.commentedScript).trace =
      ["-- schema\nCREATE TABLE t(id int);\n  INSERT INTO t VALUES (1); \n"] :=
  ⟨by decide,
   exec_receives_whole_script Env.commentedScript scenarioConfig
     "-- schema\nCREATE TABLE t(id int);\n  INSERT INTO t VALUES (1); \n"
     (by decide) (by decide)⟩

/-- Counterexample to C6 as stated: every listed step succeeds and the close of
`sqlrunner.json` reports an error; `CloseFile` is fatal on it, so the log holds
that error alone and the status is 1. -/
theorem success_report_counterexample :
    ListedStepsOK Env.configCloseError scenarioConfig ∧
    ¬ (logMessages (run Env.configCloseError).trace =
        ["Executing SQL commands...", "Done", "SQL Commands executed."] ∧
      (run Env.configCloseError).status = 0) ∧
    logMessages (run Env.configCloseError).trace =
      ["close sqlrunner.json: input/output error"] ∧
    (run Env.configCloseError).status = 1 := by
  refine ⟨by decide, ?_, by decide, by decide⟩
  decide

/-- Claim C6, amended: when every step succeeds, the three file closes
included, the lines written to the log are exactly the three messages in
order, the handle is closed once, after `Done` and before
`SQL Commands executed.`, and the status is 0. -/
theorem success_report (env : Env) (cfg : AppConfig) (h : AllOK env cfg) :
    logMessages (run env).trace =
      ["Executing SQL commands...", "Done", "SQL Commands executed."] ∧
    (run env).trace.countP Effect.isDbClose = 1 ∧
    precedes (Effect.isLog "Done") Effect.isDbClose (run env).trace = true ∧
    precedes Effect.isDbClose (Effect.isLog "SQL Commands executed.") (run env).trace = true ∧
    (run env).status = 0 := by
  rw [run_allOK env cfg h]
  simp [traceLogReady, traceConfigRead, traceConfigLoaded, tracePingOK, traceScriptRead,
    traceExecuted, traceClosed, runnerLog, logMessages, precedes, Effect.isLog, Effect.isDbClose]

/-- Witness of C6 amended: the end-to-end scenario. -/
theorem success_report_witness :
    AllOK Env.scenario scenarioConfig ∧
    logMessages (run Env.scenario).trace =
      ["Executing SQL commands...", "Done", "SQL Commands executed."] ∧
    (run Env.scenario).trace.countP Effect.isDbClose = 1 ∧
    precedes (Effect.isLog "Done") Effect.isDbClose (run Env.scenario).trace = true ∧
    precedes Effect.isDbClose (Effect.isLog "SQL Commands executed.")
      (run Env.scenario).trace = true ∧
    (run Env.scenario).status = 0 :=
  ⟨by decide, success_report Env.scenario scenarioConfig (by decide)⟩

/-- Claim C7: the status is 0 exactly when every step succeeds; and when the
log file open, the settings open, the decoding, the ping, the script open or
the `Exec` fails, the status is non-zero and the failed call is the last call
of the run (only the fatal log line follows it). -/
theorem exit_status_by_step (env : Env) :
    ((run env).status = 0 ↔ ∃ cfg, AllOK env cfg) ∧
    (∀ e, env.openFile "runner.log" = some e →
      (run env).status ≠ 0 ∧
      lastCall (run env).trace = some (.openFile "runner.log" (some e))) ∧
    (∀ e, LogReady env → env.openFile "sqlrunner.json" = some e →
      (run env).status ≠ 0 ∧
      lastCall (run env).trace = some (.openFile "sqlrunner.json" (some e))) ∧
    (∀ e, ConfigOpen env → env.decoded = .error e →
      (run env).status ≠ 0 ∧
      lastCall (run env).trace = some (.jsonUnmarshal env.configBytes (some e))) ∧
    (∀ cfg e, HandleOpen env cfg → env.ping (handleOf cfg) = some e →
      (run env).status ≠ 0 ∧
      lastCall (run env).trace = some (.dbPing (handleOf cfg) (some e))) ∧
    (∀ cfg e, PingOK env cfg → env.openFile "commands.sql" = some e →
      (run env).status ≠ 0 ∧
      lastCall (run env).trace = some (.openFile "commands.sql" (some e))) ∧
    (∀ cfg e, ScriptLoaded env cfg → env.exec (handleOf cfg) env.script = some e →
      (run env).status ≠ 0 ∧
      lastCall (run env).trace = some (.dbExec (handleOf cfg) env.script (some e))) := by
  refine ⟨status_zero_iff env, ?_, ?_, ?_, ?_, ?_, ?_⟩
  · intro e h
    rw [run_logOpenFails env e h]
    simp [lastCall, Effect.isLogLine]
  · intro e h h1
    rw [run_configOpenFails env e h h1]
    simp [lastCall, Effect.isLogLine, traceLogReady, runnerLog]
  · intro e h h1
    rw [run_decodeFails env e h h1]
    simp [lastCall, Effect.isLogLine, traceLogReady, traceConfigRead, runnerLog]
  · intro cfg e h h1
    rw [run_pingFails env cfg e h h1]
    simp [lastCall, Effect.isLogLine, traceLogReady, traceConfigRead, traceConfigLoaded,
      runnerLog]
  · intro cfg e h h1
    rw [run_scriptOpenFails env cfg e h h1]
    simp [lastCall, Effect.isLogLine, traceLogReady, traceConfigRead, traceConfigLoaded,
      tracePingOK, runnerLog]
  · intro cfg e h h1
    rw [run_execFails env cfg e h h1]
    simp [lastCall, Effect.isLogLine, traceLogReady, traceConfigRead, traceConfigLoaded,
      tracePingOK, traceScriptRead, runnerLog]

/-- Witness of C7: the scenario and one environment for each failing step. -/
theorem exit_status_by_step_witness :
    (run Env.scenario).status = 0 ∧
    (run Env.noLog).status ≠ 0 ∧
    (run Env.noConfig).status ≠ 0 ∧
    (run Env.badJson).status ≠ 0 ∧
    (run Env.dbDown).status ≠ 0 ∧
    (run Env.noScript).status ≠ 0 ∧
    (run Env.execError).status ≠ 0 :=
  ⟨(exit_status_by_step Env.scenario).1.mpr ⟨scenarioConfig, by decide⟩,
   ((exit_status_by_step Env.noLog).2.1 "open runner.log: permission denied"
      (by decide)).1,
   ((exit_status_by_step Env.noConfig).2.2.1
      "open sqlrunner.json: no such file or directory" (by decide) (by decide)).1,
   ((exit_status_by_step Env.badJson).2.2.2.1 "unexpected end of JSON input"
      (by decide) (by decide)).1,
   ((exit_status_by_step Env.dbDown).2.2.2.2.1 scenarioConfig
      "dial tcp 127.0.0.1:5432: connect: connection refused" (by decide) (by decide)).1,
   ((exit_status_by_step Env.noScript).2.2.2.2.2.1 scenarioConfig
      "open commands.sql: no such file or directory" (by decide) (by decide)).1,
   ((exit_status_by_step Env.execError).2.2.2.2.2.2 scenarioConfig
      "pq: relation \"t\" already exists" (by decide) (by decide)).1⟩

/-- Counterexample to C8 as stated: `commands.sql` opens, reading it returns an
error after 27 bytes; the run is not ended, the `Exec` is issued with those
27 bytes and the status is 0. -/
theorem script_read_error_counterexample :
    ScriptOpen Env.scriptReadError scenarioConfig ∧
    Env.scriptReadError.readAll "commands.sql" =
      ("CREATE TABLE t(id int); INS", some "read commands.sql: input/output error") ∧
    execArgs (run Env.scriptReadError).trace = ["CREATE TABLE t(id int); INS"] ∧
    (run Env.scriptReadError).status = 0 := by
  refine ⟨by decide, by decide, by decide, by decide⟩

/-- Claim C8, amended: `LoadSQLCommands` ends the process with status 1
whenever `commands.sql` does not open; in a run that reaches it the last log
line is then the message with the open error and no `Exec` is issued.  The
error of the read after a successful open is discarded and is never fatal:
whatever the read returned, when the deferred close of `commands.sql` succeeds
`LoadSQLCommands` returns the bytes read and the run issues the `Exec` with
them, and when that close fails `LoadSQLCommands` ends the process with
status 1, the last log line is the close error and no `Exec` is issued. -/
theorem script_load_fatal_on_open_only (env : Env) (cfg : AppConfig) :
    (∀ e, env.openFile "commands.sql" = some e →
      (∀ w, ∃ w1, LoadSQLCommands env w = .exit 1 w1) ∧
      (PingOK env cfg →
        (run env).status = 1 ∧
        (logMessages (run env).trace).getLast? =
          some ("Error loading SQL commands file, check 'commands.sql': " ++ e) ∧
        execArgs (run env).trace = [])) ∧
    (∀ B err, env.openFile "commands.sql" = none → env.readAll "commands.sql" = (B, err) →
      (env.closeFile "commands.sql" = none →
        (∀ w, ∃ w1, LoadSQLCommands env w = .ret B w1) ∧
        (PingOK env cfg → execArgs (run env).trace = [B])) ∧
      (∀ e, env.closeFile "commands.sql" = some e →
        (∀ w, ∃ w1, LoadSQLCommands env w = .exit 1 w1) ∧
        (PingOK env cfg →
          (run env).status = 1 ∧
          (logMessages (run env).trace).getLast? = some e ∧
          execArgs (run env).trace = []))) := by
  constructor
  · intro e h
    refine ⟨LoadSQLCommands_exits env e h, fun hp => ?_⟩
    rw [run_scriptOpenFails env cfg e hp h]
    simp [traceLogReady, traceConfigRead, traceConfigLoaded, tracePingOK, traceScriptRead,
    traceExecuted, traceClosed, runnerLog, logMessages, execArgs]
  · intro B err h hB
    constructor
    · intro h2
      constructor
      · intro w
        have hw := LoadSQLCommands_returns env h h2 w
        rw [hB] at hw
        exact hw
      · intro hp
        have hs : ScriptLoaded env cfg := ⟨⟨hp, h⟩, h2⟩
        rcases hx : env.exec (handleOf cfg) env.script with _ | e
        · rcases hc : env.dbClose (handleOf cfg) with _ | e
          · rcases hl : env.closeFile "runner.log" with _ | e
            · rw [run_allOK env cfg ⟨⟨⟨hs, hx⟩, hc⟩, hl⟩]
              simp [traceLogReady, traceConfigRead, traceConfigLoaded, tracePingOK, traceScriptRead,
    traceExecuted, traceClosed, runnerLog, execArgs, Env.script, hB]
            · rw [run_logCloseFails env cfg e ⟨⟨hs, hx⟩, hc⟩ hl]
              simp [traceLogReady, traceConfigRead, traceConfigLoaded, tracePingOK, traceScriptRead,
    traceExecuted, traceClosed, runnerLog, execArgs, Env.script, hB]
          · rw [run_dbCloseFails env cfg e ⟨hs, hx⟩ hc]
            simp [traceLogReady, traceConfigRead, traceConfigLoaded, tracePingOK, traceScriptRead,
    traceExecuted, traceClosed, runnerLog, execArgs, Env.script, hB]
        · rw [run_execFails env cfg e hs hx]
          simp [traceLogReady, traceConfigRead, traceConfigLoaded, tracePingOK, traceScriptRead,
    traceExecuted, traceClosed, runnerLog, execArgs, Env.script, hB]
    · intro e h2
      refine ⟨LoadSQLCommands_exits_on_close env e h h2, fun hp => ?_⟩
      rw [run_scriptCloseFails env cfg e ⟨hp, h⟩ h2]
      simp [traceLogReady, traceConfigRead, traceConfigLoaded, tracePingOK, traceScriptRead,
    traceExecuted, traceClosed, runnerLog, logMessages, execArgs]

/-- Witness of C8 amended: the absent script, the script whose read fails and
closes, and the script whose read and close both fail. -/
theorem script_load_fatal_on_open_only_witness :
    ((run Env.noScript).status = 1 ∧
      (logMessages (run Env.noScript).trace).getLast? =
        some ("Error loading SQL commands file, check 'commands.sql': " ++
          "open commands.sql: no such file or directory") ∧
      execArgs (run Env.noScript).trace = []) ∧
    execArgs (run Env.scriptReadError).trace = ["CREATE TABLE t(id int); INS"] ∧
    ((run Env.scriptCloseError).status = 1 ∧
      (logMessages (run Env.scriptCloseError).trace).getLast? =
        some "close commands.sql: input/output error" ∧
      execArgs (run Env.scriptCloseError).trace = []) :=
  ⟨((script_load_fatal_on_open_only Env.noScript scenarioConfig).1
      "open commands.sql: no such file or directory" (by decide)).2 (by decide),
   (((script_load_fatal_on_open_only Env.scriptReadError scenarioConfig).2
      "CREATE TABLE t(id int); INS" (some "read commands.sql: input/output error")
      (by decide) (by decide)).1 (by decide)).2 (by decide),
   (((script_load_fatal_on_open_only Env.scriptCloseError scenarioConfig).2
      "CREATE TABLE t(id int); INS" (some "read commands.sql: input/output error")
      (by decide) (by decide)).2 "close commands.sql: input/output error"
      (by decide)).2 (by decide)⟩

/-- Counterexample to C9 as stated: the settings do not decode; the process
ends through `log.Fatal` with `runner.log` and `sqlrunner.json` opened and
`Close` called on neither. -/
theorem files_closed_counterexample :
    (run Env.badJson).status = 1 ∧
    openAtExit (run Env.badJson).trace = ["runner.log", "sqlrunner.json"] := by
  constructor <;> decide

/-- Claim C9, amended: a run with status 0 leaves no file unclosed, and so
does every run in which `ExecuteSQLCommands` returns (also when the final close
of `runner.log` then reports an error); `commands.sql` is never left unclosed;
`sqlrunner.json` is left unclosed exactly when it was opened and the decoding
failed; `runner.log` is left unclosed exactly when it was opened and a later
step, up to and including the close of the database handle, failed; no other
file is left unclosed. -/
theorem files_closed_on_return_only (env : Env) :
    ((run env).status = 0 → openAtExit (run env).trace = []) ∧
    (∀ cfg, Closed env cfg → openAtExit (run env).trace = []) ∧
    "commands.sql" ∉ openAtExit (run env).trace ∧
    ("sqlrunner.json" ∈ openAtExit (run env).trace ↔
      ConfigOpen env ∧ ∃ e, env.decoded = .error e) ∧
    ("runner.log" ∈ openAtExit (run env).trace ↔
      LogReady env ∧ ¬ ∃ cfg, Closed env cfg) ∧
    (∀ p ∈ openAtExit (run env).trace, p = "runner.log" ∨ p = "sqlrunner.json") := by
  rcases run_path env with ⟨e, h0, hr⟩ | ⟨e, h0, h1, hr⟩ | ⟨e, h0, h1, hr⟩ |
    ⟨cfg, e, h0, h1, h2, hr⟩ | ⟨cfg, e, h0, h1, hr⟩ | ⟨cfg, e, h0, h1, hr⟩ |
    ⟨cfg, e, h0, h1, hr⟩ | ⟨cfg, e, h0, h1, hr⟩ | ⟨cfg, e, h0, h1, hr⟩ |
    ⟨cfg, e, h0, h1, hr⟩ | ⟨cfg, e, h0, h1, hr⟩ | ⟨cfg, h0, hr⟩
  all_goals
    rw [hr]
    simp only [ConfigOpen, LogReady, ConfigLoaded, HandleOpen, PingOK, ScriptOpen, ScriptLoaded,
    Executed, Closed, AllOK] at *
    simp_all [traceLogReady, traceConfigRead, traceConfigLoaded, tracePingOK, traceScriptRead,
    traceExecuted, traceClosed, runnerLog, openAtExit]

/-- Witness of C9 amended: the scenario ends with status 0 and no file
unclosed; when only the final close of `runner.log` fails the status is not 0
and still no file is unclosed. -/
theorem files_closed_on_return_only_witness :
    ((run Env.scenario).status = 0 ∧ openAtExit (run Env.scenario).trace = []) ∧
    (Closed Env.logCloseError scenarioConfig ∧
      openAtExit (run Env.logCloseError).trace = []) :=
  ⟨⟨by decide, (files_closed_on_return_only Env.scenario).1 (by decide)⟩,
   ⟨by decide,
    (files_closed_on_return_only Env.logCloseError).2.1 scenarioConfig (by decide)⟩⟩

/-- Claim C10: in every run there is at most one `sql.Open`, one ping and one
`Exec`; `db.Close` is called once when an `Exec` returned without error and not
at all otherwise, and never before an `Exec`; on a run that fails at the ping,
at the script load or at the `Exec`, the handle was constructed and is never
closed. -/
theorem handle_lifecycle (env : Env) :
    (run env).trace.countP Effect.isSqlOpen ≤ 1 ∧
    (run env).trace.countP Effect.isPing ≤ 1 ∧
    (run env).trace.countP Effect.isExec ≤ 1 ∧
    (run env).trace.countP Effect.isDbClose =
      (if (run env).trace.any Effect.isExecOK then 1 else 0) ∧
    precedes Effect.isExecOK Effect.isDbClose (run env).trace =
      (run env).trace.any Effect.isDbClose ∧
    precedes Effect.isDbClose Effect.isExec (run env).trace = false ∧
    (∀ cfg e, HandleOpen env cfg → env.ping (handleOf cfg) = some e →
      (run env).trace.countP Effect.isSqlOpen = 1 ∧
      (run env).trace.any Effect.isDbClose = false) ∧
    (∀ cfg e, PingOK env cfg →
      env.openFile "commands.sql" = some e ∨
        (env.openFile "commands.sql" = none ∧ env.closeFile "commands.sql" = some e) →
      (run env).trace.countP Effect.isSqlOpen = 1 ∧
      (run env).trace.any Effect.isDbClose = false) ∧
    (∀ cfg e, ScriptLoaded env cfg → env.exec (handleOf cfg) env.script = some e →
      (run env).trace.countP Effect.isSqlOpen = 1 ∧
      (run env).trace.any Effect.isDbClose = false) := by
  refine ⟨?_, ?_, ?_, ?_, ?_, ?_, ?_, ?_, ?_⟩
  iterate 6
    rcases run_path env with ⟨e, h0, hr⟩ | ⟨e, h0, h1, hr⟩ | ⟨e, h0, h1, hr⟩ |
    ⟨cfg, e, h0, h1, h2, hr⟩ | ⟨cfg, e, h0, h1, hr⟩ | ⟨cfg, e, h0, h1, hr⟩ |
    ⟨cfg, e, h0, h1, hr⟩ | ⟨cfg, e, h0, h1, hr⟩ | ⟨cfg, e, h0, h1, hr⟩ |
    ⟨cfg, e, h0, h1, hr⟩ | ⟨cfg, e, h0, h1, hr⟩ | ⟨cfg, h0, hr⟩ <;>
    · rw [hr]
      simp [traceLogReady, traceConfigRead, traceConfigLoaded, tracePingOK, traceScriptRead,
    traceExecuted, traceClosed, runnerLog, precedes, List.countP_cons, Effect.isSqlOpen, Effect.isPing,
        Effect.isExec, Effect.isExecOK, Effect.isDbClose]
  · intro cfg e h h1
    rw [run_pingFails env cfg e h h1]
    simp [traceLogReady, traceConfigRead, traceConfigLoaded, tracePingOK, traceScriptRead,
    traceExecuted, traceClosed, runnerLog, List.countP_cons, Effect.isSqlOpen, Effect.isDbClose]
  · rintro cfg e h (h1 | ⟨h1, h2⟩)
    · rw [run_scriptOpenFails env cfg e h h1]
      simp [traceLogReady, traceConfigRead, traceConfigLoaded, tracePingOK, traceScriptRead,
    traceExecuted, traceClosed, runnerLog, List.countP_cons, Effect.isSqlOpen, Effect.isDbClose]
    · rw [run_scriptCloseFails env cfg e ⟨h, h1⟩ h2]
      simp [traceLogReady, traceConfigRead, traceConfigLoaded, tracePingOK, traceScriptRead,
    traceExecuted, traceClosed, runnerLog, List.countP_cons, Effect.isSqlOpen, Effect.isDbClose]
  · intro cfg e h h1
    rw [run_execFails env cfg e h h1]
    simp [traceLogReady, traceConfigRead, traceConfigLoaded, tracePingOK, traceScriptRead,
    traceExecuted, traceClosed, runnerLog, List.countP_cons, Effect.isSqlOpen, Effect.isDbClose]

/-- Witness of C10: the handle is not closed when the ping, the script open
or the `Exec` fails. -/
theorem handle_lifecycle_witness :
    (run Env.dbDown).trace.any Effect.isDbClose = false ∧
    (run Env.noScript).trace.any Effect.isDbClose = false ∧
    (run Env.execError).trace.any Effect.isDbClose = false :=
  ⟨((handle_lifecycle Env.dbDown).2.2.2.2.2.2.1 scenarioConfig
      "dial tcp 127.0.0.1:5432: connect: connection refused" (by decide) (by decide)).2,
   ((handle_lifecycle Env.noScript).2.2.2.2.2.2.2.1 scenarioConfig
      "open commands.sql: no such file or directory" (by decide)
      (Or.inl (by decide))).2,
   ((handle_lifecycle Env.execError).2.2.2.2.2.2.2.2 scenarioConfig
      "pq: relation \"t\" already exists" (by decide) (by decide)).2⟩

end SqlRunner
